import Mathlib

/-!
Verification of the Deluthium Hummingbot connector against its
natural-language specification.

The Python sources are shallowly embedded: `Decimal` prices become `ℚ`,
`dict` payloads become association lists or small structures, exceptions
become `Except`, and the polling coroutine becomes a step function over an
explicit list of cycle inputs.  All definitions are translated from the
files under `deluthium_hummingbot/connector/`.
-/

set_option maxRecDepth 4000

namespace Deluthium

/-! ## Synthetic order book (`deluthium_api_order_book_data_source.py`)

`SYNTHETIC_SPREAD` embeds the module constant `Decimal("0.001")`
(0.1 % = 10 bps).  Prices are exact rationals, mirroring `Decimal`
arithmetic in the source.
-/

def SYNTHETIC_SPREAD : ℚ := 0.001

/-- An order-book snapshot payload: the dict
`{"trading_pair": ..., "bids": [[price, size], ...], "asks": ...}` built by
`_request_order_book_snapshot`. -/
structure Snapshot where
  trading_pair : String
  bids : List (ℚ × ℚ)
  asks : List (ℚ × ℚ)
  deriving DecidableEq, Repr

/-- Embedding of `_request_order_book_snapshot`.  The awaited
`_get_indicative_price` result is passed in as `mid : Option ℚ` (the network
is external input).  When the mid-price is absent the method returns the
empty book; otherwise it builds two synthetic levels on each side. -/
def request_order_book_snapshot (trading_pair : String) (mid : Option ℚ) : Snapshot :=
  match mid with
  | none => { trading_pair := trading_pair, bids := [], asks := [] }
  | some mid_d =>
    let half_spread := mid_d * SYNTHETIC_SPREAD / 2
    let best_bid := mid_d - half_spread
    let best_ask := mid_d + half_spread
    { trading_pair := trading_pair
      bids := [(best_bid, 1), (mid_d - half_spread * 2, 2)]
      asks := [(best_ask, 1), (mid_d + half_spread * 2, 2)] }

/-- C1: with the indicative mid-price `m` present and the fixed spread ratio
`r = 0.001`, `_request_order_book_snapshot` returns exactly two bid levels
`[(m - m*r/2, 1), (m - m*r, 2)]` and two ask levels
`[(m + m*r/2, 1), (m + m*r, 2)]`; in particular at mid-price 600 the book is
bids `[(599.70, 1), (599.40, 2)]` and asks `[(600.30, 1), (600.60, 2)]`. -/
theorem C1_synthetic_book_levels : ∀ (pair : String) (m : ℚ),
    request_order_book_snapshot pair (some m) =
      { trading_pair := pair
        bids := [(m - m * SYNTHETIC_SPREAD / 2, 1), (m - m * SYNTHETIC_SPREAD, 2)]
        asks := [(m + m * SYNTHETIC_SPREAD / 2, 1), (m + m * SYNTHETIC_SPREAD, 2)] }
    ∧ request_order_book_snapshot pair (some 600) =
      { trading_pair := pair
        bids := [(599.70, 1), (599.40, 2)]
        asks := [(600.30, 1), (600.60, 2)] } := by
  intro pair m
  refine ⟨?_, ?_⟩
  · simp only [request_order_book_snapshot, Snapshot.mk.injEq, List.cons.injEq,
      Prod.mk.injEq, and_true, true_and]
    and_intros <;> ring
  · simp only [request_order_book_snapshot, SYNTHETIC_SPREAD, Snapshot.mk.injEq,
      List.cons.injEq, Prod.mk.injEq, and_true, true_and]
    norm_num

/-- C2: for any positive mid-price, the synthetic snapshot has its two bid
prices strictly descending below the mid and its two ask prices strictly
ascending above the mid, so in particular best bid < best ask. -/
theorem C2_synthetic_book_ordering (pair : String) (m : ℚ) (h : 0 < m) :
    ∃ b1 b2 a1 a2 : ℚ,
      (request_order_book_snapshot pair (some m)).bids = [(b1, 1), (b2, 2)]
      ∧ (request_order_book_snapshot pair (some m)).asks = [(a1, 1), (a2, 2)]
      ∧ b2 < b1 ∧ b1 < m ∧ m < a1 ∧ a1 < a2 ∧ b1 < a1 := by
  refine ⟨m - m * SYNTHETIC_SPREAD / 2, m - m * SYNTHETIC_SPREAD / 2 * 2,
    m + m * SYNTHETIC_SPREAD / 2, m + m * SYNTHETIC_SPREAD / 2 * 2, rfl, rfl, ?_, ?_, ?_, ?_, ?_⟩
    <;> (simp only [SYNTHETIC_SPREAD]; nlinarith)

/-- C2 witness: the ordering invariant evaluated at mid-price 600. -/
theorem C2_synthetic_book_ordering_witness :
    (0 : ℚ) < 600 ∧
    ∃ b1 b2 a1 a2 : ℚ,
      (request_order_book_snapshot "BNB-USDT" (some 600)).bids = [(b1, 1), (b2, 2)]
      ∧ (request_order_book_snapshot "BNB-USDT" (some 600)).asks = [(a1, 1), (a2, 2)]
      ∧ b2 < b1 ∧ b1 < 600 ∧ 600 < a1 ∧ a1 < a2 ∧ b1 < a1 :=
  ⟨by norm_num, C2_synthetic_book_ordering "BNB-USDT" 600 (by norm_num)⟩

/-- C5: when the indicative mid-price is absent, the snapshot is the empty
book (no bids, no asks) for the requested pair, and the builder is a total
function (it cannot raise). -/
theorem C5_empty_book_when_price_absent : ∀ pair : String,
    request_order_book_snapshot pair none =
      { trading_pair := pair, bids := [], asks := [] } := by
  intro pair
  rfl

/-! ## Symbol codec (`deluthium_utils.py`)

Python's single-character `str.replace` is embedded as a character map over
the string's underlying character list. -/

/-- Embedding of `convert_symbol_to_hummingbot`:
`symbol.replace("/", "-")`. -/
def convert_symbol_to_hummingbot (symbol : String) : String :=
  ⟨symbol.data.map (fun c => if c = '/' then '-' else c)⟩

/-- Embedding of `convert_symbol_to_deluthium`:
`symbol.replace("-", "/")`. -/
def convert_symbol_to_deluthium (symbol : String) : String :=
  ⟨symbol.data.map (fun c => if c = '-' then '/' else c)⟩

theorem data_append (a b : String) : (a ++ b).data = a.data ++ b.data := by
  cases a
  cases b
  rfl

theorem to_deluthium_to_hummingbot (l : List Char) (h : '-' ∉ l) :
    l.map ((fun c => if c = '-' then '/' else c) ∘ fun c => if c = '/' then '-' else c) = l := by
  induction l with
  | nil => rfl
  | cons c t ih =>
    simp only [List.mem_cons, not_or] at h
    simp only [List.map_cons, Function.comp_apply, ih h.2, List.cons.injEq, and_true]
    by_cases hc : c = '/'
    · simp [hc]
    · have hcd : ¬c = '-' := fun hcc => h.1 hcc.symm
      simp [hc, hcd]

theorem to_hummingbot_to_deluthium (l : List Char) (h : '/' ∉ l) :
    l.map ((fun c => if c = '/' then '-' else c) ∘ fun c => if c = '-' then '/' else c) = l := by
  induction l with
  | nil => rfl
  | cons c t ih =>
    simp only [List.mem_cons, not_or] at h
    simp only [List.map_cons, Function.comp_apply, ih h.2, List.cons.injEq, and_true]
    by_cases hc : c = '-'
    · simp [hc]
    · have hcd : ¬c = '/' := fun hcc => h.1 hcc.symm
      simp [hc, hcd]

/-- C8: the symbol codec round-trips.  For a well-formed venue symbol
`BASE/QUOTE` whose tokens contain neither separator,
`convert_symbol_to_deluthium (convert_symbol_to_hummingbot x) = x`, and for a
well-formed host symbol `BASE-QUOTE`,
`convert_symbol_to_hummingbot (convert_symbol_to_deluthium y) = y`. -/
theorem C8_symbol_codec_round_trip (b q : String)
    (hb1 : '/' ∉ b.data) (hb2 : '-' ∉ b.data) (hq1 : '/' ∉ q.data) (hq2 : '-' ∉ q.data) :
    convert_symbol_to_deluthium (convert_symbol_to_hummingbot (b ++ "/" ++ q)) = b ++ "/" ++ q
    ∧ convert_symbol_to_hummingbot (convert_symbol_to_deluthium (b ++ "-" ++ q)) = b ++ "-" ++ q := by
  constructor
  · have hd : (b ++ "/" ++ q).data = b.data ++ '/' :: q.data := by
      rw [data_append, data_append, show "/".data = ['/'] from by decide]
      simp
    have hnot : '-' ∉ (b ++ "/" ++ q).data := by
      rw [hd]
      simp only [List.mem_append, List.mem_cons, not_or]
      exact ⟨hb2, by decide, hq2⟩
    show String.mk _ = _
    rw [convert_symbol_to_hummingbot]
    simp only [List.map_map]
    rw [to_deluthium_to_hummingbot _ hnot]
  · have hd : (b ++ "-" ++ q).data = b.data ++ '-' :: q.data := by
      rw [data_append, data_append, show "-".data = ['-'] from by decide]
      simp
    have hnot : '/' ∉ (b ++ "-" ++ q).data := by
      rw [hd]
      simp only [List.mem_append, List.mem_cons, not_or]
      exact ⟨hb1, by decide, hq1⟩
    show String.mk _ = _
    rw [convert_symbol_to_deluthium]
    simp only [List.map_map]
    rw [to_hummingbot_to_deluthium _ hnot]

/-- C8 witness: the round trip evaluated on the concrete tokens
`BNB` and `USDT`. -/
theorem C8_symbol_codec_round_trip_witness :
    ('/' ∉ "BNB".data ∧ '-' ∉ "BNB".data ∧ '/' ∉ "USDT".data ∧ '-' ∉ "USDT".data)
    ∧ convert_symbol_to_deluthium (convert_symbol_to_hummingbot ("BNB" ++ "/" ++ "USDT")) =
        "BNB" ++ "/" ++ "USDT"
    ∧ convert_symbol_to_hummingbot (convert_symbol_to_deluthium ("BNB" ++ "-" ++ "USDT")) =
        "BNB" ++ "-" ++ "USDT" :=
  ⟨by decide,
   C8_symbol_codec_round_trip "BNB" "USDT" (by decide) (by decide) (by decide) (by decide)⟩

/-! ## Chain validation (`deluthium_utils.py`, `deluthium_constants.py`) -/

/-- Table `SUPPORTED_CHAINS` from `deluthium_constants.py` (chain id → name). -/
def SUPPORTED_CHAINS : List (Int × String) :=
  [(56, "BSC"), (8453, "Base"), (1, "Ethereum")]

/-- Table `WRAPPED_TOKENS` from `deluthium_constants.py` (chain id → wrapped native
token contract address). -/
def WRAPPED_TOKENS : List (Int × String) :=
  [(56, "0xbb4CdB9CBd36B01bD1cBaEBF2De08d9173bc095c"),
   (8453, "0x4200000000000000000000000000000000000006"),
   (1, "0xC02aaA39b223FE8D0A0e5C4F27eAD9083C756Cc2")]

/-- Embedding of `validate_chain_id`: membership of the chain id among the
keys of `SUPPORTED_CHAINS`. -/
def validate_chain_id (chain_id : Int) : Bool :=
  (SUPPORTED_CHAINS.lookup chain_id).isSome

/-- Embedding of `get_wrapped_token`: returns the wrapped-token address, or
raises (`Except.error`) when the chain id is not a key of `WRAPPED_TOKENS`. -/
def get_wrapped_token (chain_id : Int) : Except String String :=
  match WRAPPED_TOKENS.lookup chain_id with
  | some addr => .ok addr
  | none =>
    .error ("Chain ID " ++ toString chain_id ++ " is not supported. Supported chains: "
      ++ toString (WRAPPED_TOKENS.map Prod.fst))

/-- C9: `validate_chain_id 56 = true`, `validate_chain_id 999 = false`;
`get_wrapped_token 999` raises the unsupported-chain error, while
`get_wrapped_token` on 56, 8453 and 1 returns the wrapped-token address
without raising. -/
theorem C9_chain_validation :
    validate_chain_id 56 = true
    ∧ validate_chain_id 999 = false
    ∧ (∃ e, get_wrapped_token 999 = .error e)
    ∧ get_wrapped_token 56 = .ok "0xbb4CdB9CBd36B01bD1cBaEBF2De08d9173bc095c"
    ∧ get_wrapped_token 8453 = .ok "0x4200000000000000000000000000000000000006"
    ∧ get_wrapped_token 1 = .ok "0xC02aaA39b223FE8D0A0e5C4F27eAD9083C756Cc2" := by
  refine ⟨rfl, rfl, ⟨_, rfl⟩, rfl, rfl, rfl⟩

/-! ## Response error handling (`deluthium_exchange.py`, `deluthium_constants.py`)

`resp.json()` can put an arbitrary JSON scalar in the `errorCode` / `code`
fields, so those fields are embedded as `Option JVal` with `JVal` covering
the scalar shapes the handler distinguishes (strings and integers). -/

/-- A JSON scalar value as it may appear in the `errorCode` or `code` field
of a Deluthium API response. -/
inductive JVal where
  | jstr (s : String)
  | jint (n : Int)
  deriving DecidableEq, Repr

/-- Python truthiness of a JSON scalar (`if error_code:` / `if numeric_code:`):
the empty string and the integer 0 are falsy. -/
def JVal.truthy : JVal → Bool
  | .jstr s => s ≠ ""
  | .jint n => n ≠ 0

/-- Rendering of a scalar inside an f-string (`f"... {numeric_code} ..."`). -/
def JVal.render : JVal → String
  | .jstr s => s
  | .jint n => toString n

/-- Trim leading and trailing whitespace characters from a character list
(Python `str.strip()` as `int()` applies it). -/
def trimChars (l : List Char) : List Char :=
  ((l.dropWhile Char.isWhitespace).reverse.dropWhile Char.isWhitespace).reverse

/-- Value of a non-empty run of decimal digit characters; `none` when the run
is empty or contains a non-digit. -/
def digitsVal (l : List Char) : Option Nat :=
  match l with
  | [] => none
  | _ =>
    l.foldl (fun acc c =>
      acc.bind (fun n => if c.isDigit then some (n * 10 + (c.toNat - 48)) else none))
      (some 0)

/-- Python `int(...)` applied to a scalar: an integer is returned unchanged, a
string is parsed (surrounding whitespace and one leading sign are accepted),
and a non-numeric string raises (`none`).  Parsing is modelled over the
character list of the string. -/
def pyIntOf : JVal → Option Int
  | .jint n => some n
  | .jstr s =>
    match trimChars s.data with
    | '-' :: rest => (digitsVal rest).map (fun n => -(n : Int))
    | '+' :: rest => (digitsVal rest).map (fun n => (n : Int))
    | t => (digitsVal t).map (fun n => (n : Int))

/-- Table `STRING_ERROR_CODES` from `deluthium_constants.py`. -/
def STRING_ERROR_CODES : List (String × String) :=
  [("INVALID_API_KEY", "The API key provided is invalid or expired."),
   ("INSUFFICIENT_LIQUIDITY", "Not enough liquidity to fill the requested amount."),
   ("PAIR_NOT_SUPPORTED", "The requested trading pair is not supported."),
   ("QUOTE_EXPIRED", "The firm quote has expired. Request a new one."),
   ("RATE_LIMIT_EXCEEDED", "Too many requests – slow down."),
   ("CHAIN_NOT_SUPPORTED", "The specified chain ID is not supported."),
   ("INVALID_AMOUNT", "The amount provided is invalid (zero or negative)."),
   ("INTERNAL_ERROR", "An unexpected server-side error occurred.")]

/-- Table `NUMERIC_ERROR_CODES` from `deluthium_constants.py`. -/
def NUMERIC_ERROR_CODES : List (Int × String) :=
  [(1001, "Invalid API key"),
   (1002, "Insufficient liquidity"),
   (1003, "Pair not supported"),
   (1004, "Quote expired"),
   (1005, "Rate limit exceeded"),
   (1006, "Chain not supported"),
   (1007, "Invalid amount"),
   (5000, "Internal server error")]

/-- A Deluthium API response body: the two fields the error handler reads via
`data.get`, plus the rest of the payload (untouched by the handler). -/
structure Resp where
  errorCode : Option JVal
  code : Option JVal
  rest : List (String × JVal)
  deriving DecidableEq, Repr

/-- The numeric half of `_handle_response_errors`: `data.get("code")`,
truthiness check, `int(numeric_code)` (which itself may raise on a
non-numeric string), then lookup in `NUMERIC_ERROR_CODES`. -/
def check_numeric_code (data : Resp) : Except String Unit :=
  match data.code with
  | none => .ok ()
  | some numeric_code =>
    if numeric_code.truthy then
      match pyIntOf numeric_code with
      | none => .error "ValueError: invalid literal for int() with base 10"
      | some n =>
        match NUMERIC_ERROR_CODES.lookup n with
        | some description =>
          .error ("Deluthium API error [code " ++ numeric_code.render ++ "]: " ++ description)
        | none => .ok ()
    else .ok ()

/-- Embedding of `_handle_response_errors`: the string `errorCode` field is
inspected first (truthiness, then membership in `STRING_ERROR_CODES`); only
when it does not match does control reach the numeric `code` check. -/
def handle_response_errors (data : Resp) : Except String Unit :=
  match data.errorCode with
  | some error_code =>
    if error_code.truthy then
      match error_code with
      | .jstr s =>
        match STRING_ERROR_CODES.lookup s with
        | some description =>
          .error ("Deluthium API error [" ++ s ++ "]: " ++ description)
        | none => check_numeric_code data
      | .jint _ => check_numeric_code data
    else check_numeric_code data
  | none => check_numeric_code data

/-- Embedding of the error path of `_place_order`: the parsed response body is
passed through `_handle_response_errors`; when no error is raised the raw
payload is returned unchanged. -/
def place_order (data : Resp) : Except String Resp :=
  match handle_response_errors data with
  | .error e => .error e
  | .ok _ => .ok data

/-- Substring containment: `sub` occurs contiguously in `s`. -/
def containsSub (s sub : String) : Prop :=
  ∃ a b : String, s = a ++ sub ++ b

deriving instance DecidableEq for Except

theorem string_code_key_ne_empty (s d : String)
    (h : STRING_ERROR_CODES.lookup s = some d) : s ≠ "" := by
  intro hs
  subst hs
  simp [show STRING_ERROR_CODES.lookup "" = none from by decide] at h

/-- C3: a response with `errorCode = "QUOTE_EXPIRED"` raises an error whose
message contains "expired" (whatever the numeric field holds); a response
with only `code = 1004` raises the equivalent error; when both fields carry
known codes the string-code error is the one raised; and when both fields are
absent `_place_order` returns the raw payload as a success. -/
theorem C3_error_code_handling :
    (∀ data : Resp, data.errorCode = some (.jstr "QUOTE_EXPIRED") →
      ∃ msg, handle_response_errors data = .error msg ∧ containsSub msg "expired")
    ∧ (∀ data : Resp, data.errorCode = none → data.code = some (.jint 1004) →
      ∃ msg, handle_response_errors data = .error msg ∧ containsSub msg "expired")
    ∧ (∀ (s : String) (n : Int) (d1 d2 : String) (rest : List (String × JVal)),
      STRING_ERROR_CODES.lookup s = some d1 → NUMERIC_ERROR_CODES.lookup n = some d2 →
      handle_response_errors ⟨some (.jstr s), some (.jint n), rest⟩ =
        .error ("Deluthium API error [" ++ s ++ "]: " ++ d1))
    ∧ (∀ rest : List (String × JVal),
      handle_response_errors ⟨none, none, rest⟩ = .ok ()
      ∧ place_order ⟨none, none, rest⟩ = .ok ⟨none, none, rest⟩) := by
  refine ⟨?_, ?_, ?_, ?_⟩
  · intro data h
    refine ⟨"Deluthium API error [QUOTE_EXPIRED]: The firm quote has expired. Request a new one.",
      ?_, "Deluthium API error [QUOTE_EXPIRED]: The firm quote has ", ". Request a new one.",
      by decide⟩
    simp [handle_response_errors, h, JVal.truthy,
      show STRING_ERROR_CODES.lookup "QUOTE_EXPIRED" =
        some "The firm quote has expired. Request a new one." from by decide]
  · intro data h1 h2
    refine ⟨"Deluthium API error [code 1004]: Quote expired",
      ?_, "Deluthium API error [code 1004]: Quote ", "", by decide⟩
    have hrw : handle_response_errors data = check_numeric_code data := by
      simp [handle_response_errors, h1]
    rw [hrw]
    simp only [check_numeric_code, h2, JVal.truthy, pyIntOf,
      show NUMERIC_ERROR_CODES.lookup 1004 = some "Quote expired" from by decide]
    rw [if_pos (by decide)]
    exact congrArg Except.error (by decide)
  · intro s n d1 d2 rest h1 h2
    have hs : s ≠ "" := string_code_key_ne_empty s d1 h1
    simp [handle_response_errors, JVal.truthy, hs, h1]
  · intro rest
    exact ⟨rfl, rfl⟩

/-- C3 witness: the four parts of the theorem instantiated at concrete
responses (errorCode "QUOTE_EXPIRED"; code 1004; both codes known; both
fields absent). -/
theorem C3_error_code_handling_witness :
    (∃ msg, handle_response_errors ⟨some (.jstr "QUOTE_EXPIRED"), none, []⟩ = .error msg
      ∧ containsSub msg "expired")
    ∧ (∃ msg, handle_response_errors ⟨none, some (.jint 1004), []⟩ = .error msg
      ∧ containsSub msg "expired")
    ∧ handle_response_errors ⟨some (.jstr "QUOTE_EXPIRED"), some (.jint 1004), []⟩ =
        .error ("Deluthium API error [" ++ "QUOTE_EXPIRED" ++ "]: "
          ++ "The firm quote has expired. Request a new one.")
    ∧ handle_response_errors ⟨none, none, [("price", .jstr "600.0")]⟩ = .ok ()
    ∧ place_order ⟨none, none, [("price", .jstr "600.0")]⟩ =
        .ok ⟨none, none, [("price", .jstr "600.0")]⟩ :=
  ⟨C3_error_code_handling.1 ⟨some (.jstr "QUOTE_EXPIRED"), none, []⟩ rfl,
   C3_error_code_handling.2.1 ⟨none, some (.jint 1004), []⟩ rfl rfl,
   C3_error_code_handling.2.2.1 "QUOTE_EXPIRED" 1004
     "The firm quote has expired. Request a new one." "Quote expired" [] (by decide) (by decide),
   (C3_error_code_handling.2.2.2 [("price", .jstr "600.0")]).1,
   (C3_error_code_handling.2.2.2 [("price", .jstr "600.0")]).2⟩

/-- C4 counterexample: the response `{"code": "1004"}` carries a *string*
value, which is not a key of the int-keyed `NUMERIC_ERROR_CODES` table, yet
`_handle_response_errors` raises, because the handler applies `int()` to the
field before the table lookup (and a string `int()` cannot parse raises
`ValueError`).  So not every unknown code value passes through as success,
refuting the claim as stated. -/
theorem C4_unknown_codes_counterexample :
    handle_response_errors ⟨none, some (.jstr "1004"), []⟩ =
      .error "Deluthium API error [code 1004]: Quote expired"
    ∧ (∀ n : Int, some (JVal.jstr "1004") ≠ some (JVal.jint n))
    ∧ handle_response_errors ⟨none, some (.jstr "no-such-code"), []⟩ =
      .error "ValueError: invalid literal for int() with base 10" := by
  refine ⟨by decide, fun n h => by simp at h, by decide⟩

/-- C4 (amended): when the `errorCode` field holds no known string code and
the `code` field is absent, falsy (`0` or `""`), or a value that Python
`int()` maps to an integer that is not a key of the numeric table — any
unknown integer, and also any numeric string naming an unknown code —
`_handle_response_errors` returns without raising and `_place_order` returns
the raw payload as a success. -/
theorem C4_unknown_codes_pass_through (data : Resp)
    (hec : ∀ s : String, data.errorCode = some (.jstr s) → STRING_ERROR_CODES.lookup s = none)
    (hc : data.code = none ∨
      ∃ v : JVal, data.code = some v ∧
        (v.truthy = false
          ∨ ∃ n : Int, pyIntOf v = some n ∧ NUMERIC_ERROR_CODES.lookup n = none)) :
    handle_response_errors data = .ok () ∧ place_order data = .ok data := by
  have hnum : check_numeric_code data = .ok () := by
    rcases hc with hnone | ⟨v, hv, hfalsy | ⟨n, hparse, hlk⟩⟩
    · simp [check_numeric_code, hnone]
    · simp [check_numeric_code, hv, hfalsy]
    · by_cases ht : v.truthy
      · simp [check_numeric_code, hv, ht, hparse, hlk]
      · simp [check_numeric_code, hv, ht]
  have hh : handle_response_errors data = .ok () := by
    match hec2 : data.errorCode with
    | none => simpa [handle_response_errors, hec2] using hnum
    | some (.jstr s) =>
      have := hec s hec2
      by_cases hs : s = ""
      · simpa [handle_response_errors, hec2, hs, JVal.truthy] using hnum
      · simpa [handle_response_errors, hec2, JVal.truthy, hs, this] using hnum
    | some (.jint k) =>
      by_cases hk : k = 0
      · simpa [handle_response_errors, hec2, hk, JVal.truthy] using hnum
      · simpa [handle_response_errors, hec2, JVal.truthy, hk] using hnum
  exact ⟨hh, by simp [place_order, hh]⟩

/-- C4 witness: an unknown string `errorCode` with an unknown integer `code`,
a falsy string `code`, and an unknown *numeric string* `code` all pass
through as a success carrying the raw payload. -/
theorem C4_unknown_codes_pass_through_witness :
    (handle_response_errors ⟨some (.jstr "SOME_NEW_CODE"), some (.jint 4242), []⟩ = .ok ()
      ∧ place_order ⟨some (.jstr "SOME_NEW_CODE"), some (.jint 4242), []⟩ =
          .ok ⟨some (.jstr "SOME_NEW_CODE"), some (.jint 4242), []⟩)
    ∧ (handle_response_errors ⟨none, some (.jstr ""), []⟩ = .ok ()
      ∧ place_order ⟨none, some (.jstr ""), []⟩ = .ok ⟨none, some (.jstr ""), []⟩)
    ∧ (handle_response_errors ⟨none, some (.jstr "4242"), []⟩ = .ok ()
      ∧ place_order ⟨none, some (.jstr "4242"), []⟩ = .ok ⟨none, some (.jstr "4242"), []⟩) :=
  ⟨C4_unknown_codes_pass_through ⟨some (.jstr "SOME_NEW_CODE"), some (.jint 4242), []⟩
      (fun s h => by
        have hs : s = "SOME_NEW_CODE" := by
          have := congrArg (fun o => o.map JVal.render) h.symm
          simpa [JVal.render] using this
        subst hs
        decide)
      (Or.inr ⟨.jint 4242, rfl, Or.inr ⟨4242, rfl, by decide⟩⟩),
   C4_unknown_codes_pass_through ⟨none, some (.jstr ""), []⟩
      (fun s h => by simp at h)
      (Or.inr ⟨.jstr "", rfl, Or.inl (by decide)⟩),
   C4_unknown_codes_pass_through ⟨none, some (.jstr "4242"), []⟩
      (fun s h => by simp at h)
      (Or.inr ⟨.jstr "4242", rfl, Or.inr ⟨4242, by decide, by decide⟩⟩)⟩

/-! ## Indicative price fetch (`deluthium_api_order_book_data_source.py`) -/

/-- Python `str.split(sep)` for a single-character separator, over the
character list (`"".split(sep) = [""]`, `n` separators give `n + 1` parts). -/
def splitOnChar (sep : Char) : List Char → List (List Char)
  | [] => [[]]
  | c :: t =>
    if c = sep then [] :: splitOnChar sep t
    else
      match splitOnChar sep t with
      | h :: r => (c :: h) :: r
      | [] => [[c]]

/-- The token split performed by `_get_indicative_price` before its `try`
block: `trading_pair.split("-") if "-" in trading_pair else
trading_pair.split("/")`. -/
def pair_tokens (trading_pair : String) : List (List Char) :=
  if (splitOnChar '-' trading_pair.data).length > 1 then splitOnChar '-' trading_pair.data
  else splitOnChar '/' trading_pair.data

/-- Outcome of the guarded network interaction inside `_get_indicative_price`:
either some exception (connection error, non-2xx status, malformed JSON,
unconvertible price value) or a decoded payload whose optional `price` field
is already converted to a number. -/
inductive NetOut where
  | fail
  | payload (price : Option ℚ)
  deriving DecidableEq, Repr

/-- Embedding of `_get_indicative_price`.  The tuple unpacking
`base, quote = trading_pair.split(...)` raises `ValueError` unless the split
yields exactly two tokens; that statement sits *before* the `try` block, so
the error propagates.  Inside the `try`, every failure is caught and `None`
is returned. -/
def get_indicative_price (trading_pair : String) (chain_id : Int) (net : NetOut) :
    Except String (Option ℚ) :=
  match pair_tokens trading_pair, chain_id with
  | [_, _], _ =>
    match net with
    | .fail => .ok none
    | .payload price => .ok price
  | _, _ => .error "ValueError: tuple unpacking expects exactly 2 values"

/-- C7 counterexample: a trading pair with no separator (and likewise one
with two separators) makes `_get_indicative_price` raise `ValueError` from
the tuple unpacking before the `try` block, so the method does not return
`None` on every failure. -/
theorem C7_never_throws_counterexample :
    get_indicative_price "BNBUSDT" 56 .fail =
      .error "ValueError: tuple unpacking expects exactly 2 values"
    ∧ get_indicative_price "BNB-USDT-X" 56 (.payload (some 600)) =
      .error "ValueError: tuple unpacking expects exactly 2 values" := by
  exact ⟨rfl, rfl⟩

/-- C7 (amended): for every trading pair whose chosen split (`"-"` when the
pair contains a dash, else `"/"`) yields exactly two tokens, and for every
chain id, `_get_indicative_price` never throws: it returns `None` on network
failure (or a missing `price` field) and the decoded price otherwise. -/
theorem C7_returns_none_on_failure (trading_pair : String) (chain_id : Int)
    (h : (pair_tokens trading_pair).length = 2) :
    get_indicative_price trading_pair chain_id .fail = .ok none
    ∧ (∀ price, get_indicative_price trading_pair chain_id (.payload price) = .ok price)
    ∧ (∀ net, ∃ r, get_indicative_price trading_pair chain_id net = .ok r) := by
  obtain ⟨a, b, hab⟩ : ∃ a b, pair_tokens trading_pair = [a, b] := by
    match htok : pair_tokens trading_pair with
    | [] => rw [htok] at h; simp at h
    | [_] => rw [htok] at h; simp at h
    | [a, b] => exact ⟨a, b, rfl⟩
    | _ :: _ :: _ :: _ => rw [htok] at h; simp at h
  refine ⟨?_, ?_, ?_⟩
  · simp [get_indicative_price, hab]
  · intro price
    simp [get_indicative_price, hab]
  · intro net
    cases net with
    | fail => exact ⟨none, by simp [get_indicative_price, hab]⟩
    | payload price => exact ⟨price, by simp [get_indicative_price, hab]⟩

/-- C7 witness: the amended behaviour evaluated at the well-formed pair
`BNB-USDT` on chain 56. -/
theorem C7_returns_none_on_failure_witness :
    (pair_tokens "BNB-USDT").length = 2
    ∧ get_indicative_price "BNB-USDT" 56 .fail = .ok none
    ∧ (∀ price, get_indicative_price "BNB-USDT" 56 (.payload price) = .ok price)
    ∧ (∀ net, ∃ r, get_indicative_price "BNB-USDT" 56 net = .ok r) :=
  ⟨by decide, C7_returns_none_on_failure "BNB-USDT" 56 (by decide)⟩

/-! ## Snapshot messages (`deluthium_order_book.py`) -/

/-- A Python value as it may appear in an exchange payload dict. -/
inductive PyVal where
  | vStr (s : String)
  | vInt (n : Int)
  | vNum (q : ℚ)
  | vLevels (l : List (ℚ × ℚ))
  deriving DecidableEq, Repr

/-- A Python dict, embedded as an association list (keys unique in practice;
lookup takes the first match, and merge puts the overriding dict first). -/
abbrev Dct : Type := List (String × PyVal)

/-- Lookup `d.get(k)` on a dict. -/
def dGet (d : Dct) (k : String) : Option PyVal :=
  List.lookup k d

/-- Merge `{**a, **b}`: a fresh dict in which `b`'s entries override `a`'s.  Under
first-match lookup, prepending `b` gives exactly that override semantics. -/
def pyMerge (a b : Dct) : Dct :=
  (b ++ a : List (String × PyVal))

/-- Python `int()` on a float timestamp: truncation toward zero. -/
def pyTrunc (q : ℚ) : Int :=
  if 0 ≤ q then ⌊q⌋ else ⌈q⌉

/-- The content dict built by `snapshot_message_from_exchange` (exactly the
four keys written by the source). -/
structure SnapshotContent where
  trading_pair : PyVal
  update_id : PyVal
  bids : PyVal
  asks : PyVal
  deriving DecidableEq, Repr

/-- Embedding of `DeluthiumOrderBook.snapshot_message_from_exchange` (in the
standalone fallback, where the content dict itself is returned).  The second
component of the result is the dict the *caller's* `msg` reference still
points to after the call: the method rebinds its local `msg` to a fresh
merged dict (`msg = {**msg, **metadata}`) and never mutates the argument. -/
def snapshot_message_from_exchange (msg : Dct) (timestamp : ℚ) (metadata : Option Dct) :
    SnapshotContent × Dct :=
  let m := match metadata with
    | some md => if md.isEmpty then msg else pyMerge msg md
    | none => msg
  ({ trading_pair := (dGet m "trading_pair").getD (.vStr "")
     update_id := (dGet m "update_id").getD (.vInt (pyTrunc timestamp))
     bids := (dGet m "bids").getD (.vLevels [])
     asks := (dGet m "asks").getD (.vLevels []) },
   msg)

theorem dGet_pyMerge (a b : Dct) (k : String) :
    dGet (pyMerge a b) k = match dGet b k with
      | some v => some v
      | none => dGet a k := by
  show List.lookup k (b ++ a) = _
  induction b with
  | nil => rfl
  | cons p t ih =>
    by_cases hk : k = p.1
    · simp [dGet, List.lookup, hk]
    · have hbeq : (k == p.1) = false := by
        simpa using hk
      simpa [dGet, List.lookup, hbeq] using ih

/-- C10: with a non-empty `metadata` dict, `snapshot_message_from_exchange`
leaves the caller's `msg` dict unchanged, lets `metadata` entries override
same-named `msg` entries in the produced content, and defaults fields absent
from both to `""` for `trading_pair`, `int(timestamp)` for `update_id` and
`[]` for `bids` and `asks`. -/
theorem C10_snapshot_message_frame (msg : Dct) (timestamp : ℚ) (metadata : Dct)
    (h : metadata ≠ []) :
    (snapshot_message_from_exchange msg timestamp (some metadata)).2 = msg
    ∧ (∀ v, dGet metadata "trading_pair" = some v →
        (snapshot_message_from_exchange msg timestamp (some metadata)).1.trading_pair = v)
    ∧ (∀ v, dGet metadata "update_id" = some v →
        (snapshot_message_from_exchange msg timestamp (some metadata)).1.update_id = v)
    ∧ (∀ v, dGet metadata "bids" = some v →
        (snapshot_message_from_exchange msg timestamp (some metadata)).1.bids = v)
    ∧ (∀ v, dGet metadata "asks" = some v →
        (snapshot_message_from_exchange msg timestamp (some metadata)).1.asks = v)
    ∧ (dGet metadata "trading_pair" = none → dGet msg "trading_pair" = none →
        (snapshot_message_from_exchange msg timestamp (some metadata)).1.trading_pair = .vStr "")
    ∧ (dGet metadata "update_id" = none → dGet msg "update_id" = none →
        (snapshot_message_from_exchange msg timestamp (some metadata)).1.update_id =
          .vInt (pyTrunc timestamp))
    ∧ (dGet metadata "bids" = none → dGet msg "bids" = none →
        (snapshot_message_from_exchange msg timestamp (some metadata)).1.bids = .vLevels [])
    ∧ (dGet metadata "asks" = none → dGet msg "asks" = none →
        (snapshot_message_from_exchange msg timestamp (some metadata)).1.asks = .vLevels []) := by
  have hne : metadata.isEmpty = false := by
    cases metadata with
    | nil => exact absurd rfl h
    | cons p t => rfl
  refine ⟨rfl, ?_, ?_, ?_, ?_, ?_, ?_, ?_, ?_⟩
  · intro v hv
    simp [snapshot_message_from_exchange, hne, dGet_pyMerge, hv]
  · intro v hv
    simp [snapshot_message_from_exchange, hne, dGet_pyMerge, hv]
  · intro v hv
    simp [snapshot_message_from_exchange, hne, dGet_pyMerge, hv]
  · intro v hv
    simp [snapshot_message_from_exchange, hne, dGet_pyMerge, hv]
  · intro h1 h2
    simp [snapshot_message_from_exchange, hne, dGet_pyMerge, h1, h2]
  · intro h1 h2
    simp [snapshot_message_from_exchange, hne, dGet_pyMerge, h1, h2]
  · intro h1 h2
    simp [snapshot_message_from_exchange, hne, dGet_pyMerge, h1, h2]
  · intro h1 h2
    simp [snapshot_message_from_exchange, hne, dGet_pyMerge, h1, h2]

/-- C10 witness: the frame and override behaviour evaluated on a concrete
payload, timestamp 1234.9 and the metadata
`{"trading_pair": "BNB-USDT"}` that the data source passes. -/
theorem C10_snapshot_message_frame_witness :
    ([("trading_pair", PyVal.vStr "BNB-USDT")] : Dct) ≠ []
    ∧ (snapshot_message_from_exchange [("trading_pair", .vStr "old"), ("bids", .vLevels [(599.7, 1)])]
        1234.9 (some [("trading_pair", .vStr "BNB-USDT")])).2 =
        [("trading_pair", .vStr "old"), ("bids", .vLevels [(599.7, 1)])]
    ∧ (snapshot_message_from_exchange [("trading_pair", .vStr "old"), ("bids", .vLevels [(599.7, 1)])]
        1234.9 (some [("trading_pair", .vStr "BNB-USDT")])).1.trading_pair = .vStr "BNB-USDT"
    ∧ (snapshot_message_from_exchange [("trading_pair", .vStr "old"), ("bids", .vLevels [(599.7, 1)])]
        1234.9 (some [("trading_pair", .vStr "BNB-USDT")])).1.update_id = .vInt (pyTrunc 1234.9) := by
  have h := C10_snapshot_message_frame
    [("trading_pair", .vStr "old"), ("bids", .vLevels [(599.7, 1)])] 1234.9
    [("trading_pair", PyVal.vStr "BNB-USDT")] (by simp)
  exact ⟨by simp, h.1, h.2.1 _ (by decide), h.2.2.2.2.2.2.1 (by decide) (by decide)⟩

/-! ## Polling loop (`listen_for_order_book_snapshots`)

The coroutine is modelled as a function over an explicit list of cycle
inputs.  Each cycle processes the configured trading pairs in order; the
processing of one pair (fetch + build + `put_nowait`) either emits a message,
raises an ordinary exception, or raises the cancellation signal
(`asyncio.CancelledError`).  After the pair loop, `asyncio.sleep` runs —
either the sleep at the end of the `try` block or the one in the
`except Exception` handler — and may itself be interrupted by cancellation.
-/

/-- Outcome of processing one trading pair inside a cycle. -/
inductive FetchOut (α : Type) where
  | emit (m : α)
  | exn
  | cancel

/-- How the pair loop of one cycle ended. -/
inductive CycleExit where
  | normal
  | exn
  | cancelled
  deriving DecidableEq, Repr

/-- Final status of a finite run of the poller. -/
inductive LoopStatus where
  | running
  | stopped
  deriving DecidableEq, Repr

/-- One cycle's inner `for pair in self._trading_pairs` loop: messages are
pushed to the output queue until the first exception; an ordinary exception
ends the cycle in the `except Exception` branch, the cancellation signal ends
it in the `except asyncio.CancelledError` branch. -/
def runCycle {α : Type} : List (FetchOut α) → List α × CycleExit
  | [] => ([], .normal)
  | .emit m :: rest =>
    let r := runCycle rest
    (m :: r.1, r.2)
  | .exn :: _ => ([], .exn)
  | .cancel :: _ => ([], .cancelled)

/-- A cycle input: the per-pair outcomes, and whether the cancellation signal
arrives during the subsequent `asyncio.sleep(POLL_INTERVAL)`. -/
abbrev CycleIn (α : Type) : Type := List (FetchOut α) × Bool

/-- Embedding of `listen_for_order_book_snapshots` run on a finite list of
cycle inputs.  A cycle whose pair loop raises cancellation — or whose sleep
is cancelled — re-raises and stops the loop; any other exception is caught
and the loop sleeps and continues with the next cycle; exhausting the inputs
leaves the loop still running (`while True` never exits normally). -/
def listen_for_order_book_snapshots {α : Type} : List (CycleIn α) → List α × LoopStatus
  | [] => ([], .running)
  | c :: rest =>
    let r := runCycle c.1
    match r.2 with
    | .cancelled => (r.1, .stopped)
    | _ =>
      if c.2 then (r.1, .stopped)
      else
        let t := listen_for_order_book_snapshots rest
        (r.1 ++ t.1, t.2)

/-- C6: (i) a cycle that raises an ordinary exception is caught — the loop
sleeps and runs the next cycle, so the run continues exactly with the
remaining cycles' output and status; (ii) a cycle whose pair loop is
cancelled stops the loop at once and no message of any later cycle is
emitted; and (iii) a run in which no cycle raises cancellation (neither in
the pair loop nor during a sleep) never terminates, whatever fetch failures
occur. -/
theorem C6_poller_cancellation_and_retry {α : Type} :
    (∀ (c : CycleIn α) (rest : List (CycleIn α)),
      (runCycle c.1).2 = .exn → c.2 = false →
      listen_for_order_book_snapshots (c :: rest) =
        ((runCycle c.1).1 ++ (listen_for_order_book_snapshots rest).1,
         (listen_for_order_book_snapshots rest).2))
    ∧ (∀ (c : CycleIn α) (rest : List (CycleIn α)),
      (runCycle c.1).2 = .cancelled →
      listen_for_order_book_snapshots (c :: rest) = ((runCycle c.1).1, .stopped))
    ∧ (∀ cs : List (CycleIn α),
      (∀ c ∈ cs, (runCycle c.1).2 ≠ .cancelled ∧ c.2 = false) →
      (listen_for_order_book_snapshots cs).2 = .running) := by
  refine ⟨?_, ?_, ?_⟩
  · intro c rest hexn hsleep
    simp [listen_for_order_book_snapshots, hexn, hsleep]
  · intro c rest hcan
    simp [listen_for_order_book_snapshots, hcan]
  · intro cs hall
    induction cs with
    | nil => rfl
    | cons c rest ih =>
      have hc := hall c (by simp)
      have hrest := ih (fun d hd => hall d (by simp [hd]))
      match hexit : (runCycle c.1).2 with
      | .cancelled => exact absurd hexit hc.1
      | .normal => simp [listen_for_order_book_snapshots, hexit, hc.2, hrest]
      | .exn => simp [listen_for_order_book_snapshots, hexit, hc.2, hrest]

/-- C6 witness: a two-cycle run whose first cycle fails mid-way retries and
keeps running; a run whose first cycle is cancelled mid-fetch stops after the
messages already emitted and drops the later cycle entirely. -/
theorem C6_poller_cancellation_and_retry_witness :
    listen_for_order_book_snapshots
        [([FetchOut.emit (1 : Int), FetchOut.exn], false), ([FetchOut.emit 2], false)] =
      ([1, 2], .running)
    ∧ listen_for_order_book_snapshots
        [([FetchOut.emit (1 : Int), FetchOut.cancel, FetchOut.emit 7], false),
         ([FetchOut.emit 2], false)] =
      ([1], .stopped)
    ∧ (listen_for_order_book_snapshots
        [([FetchOut.emit (1 : Int), FetchOut.exn], false), ([FetchOut.emit 2], false)]).2 =
      .running := by
  refine ⟨?_, ?_, ?_⟩
  · have h := (C6_poller_cancellation_and_retry (α := Int)).1
      ([FetchOut.emit 1, FetchOut.exn], false) [([FetchOut.emit 2], false)] rfl rfl
    simpa using h
  · have h := (C6_poller_cancellation_and_retry (α := Int)).2.1
      ([FetchOut.emit 1, FetchOut.cancel, FetchOut.emit 7], false) [([FetchOut.emit 2], false)] rfl
    simpa using h
  · refine (C6_poller_cancellation_and_retry (α := Int)).2.2
      [([FetchOut.emit (1 : Int), FetchOut.exn], false), ([FetchOut.emit 2], false)] ?_
    intro c hc
    simp only [List.mem_cons, List.not_mem_nil, or_false] at hc
    rcases hc with h | h <;> subst h <;> exact ⟨by decide, rfl⟩

end Deluthium
